import Mathlib

/-!
Verification of the SGA-V2 archive tool (MAK-Relic-Tool/SGA-V2).

This file gives a shallow embedding, in Lean 4, of the parts of the
repository that the checked claims talk about:

* `relic/sga/v2/serialization.py` — the binary layout of the V2 table of
  contents (ToC), the game-variant detection (`SgaTocV2._determine_game`)
  and the per-file record accessors (`_SgaTocFileV2.storage_type`,
  `SgaTocFileV2Dow`, `SgaTocFileV2ImpCreatures`).
* `relic/sga/v2/essencefs/definitions.py` — the in-memory filesystem nodes
  (`SgaFsFileV2Lazy`, `SgaFsFileV2Mem`, `SgaFsFileV2`, `SgaFsFolderV2Mem`),
  the path resolver (`SgaPathResolver`), the facade (`EssenceFSV2`), the
  ToC disassembler (`_V2TocDisassembler`) and the three-pass serializer
  (`_SgaV2Serializer`).

Byte streams are modelled as `List Nat` (each entry a byte value), machine
integers as `Nat`/`Int` with explicit reductions modulo `2 ^ 32` or
`2 ^ 16` where the Python code packs fixed-width little-endian fields.
External collaborators that are not part of this repository (zlib
compression, the MD5 hasher and the CRC32 hasher of `relic.sga.core`) are
taken as function parameters, so every theorem holds for an arbitrary
choice of those functions.
-/

namespace SgaV2

/-- Little-endian encoding of a natural number into `size` bytes, the
model of Python `int.to_bytes(size, "little", signed=False)` composed
with the implicit truncation of fixed-width fields. -/
def leBytes (size value : Nat) : List Nat :=
  match size with
  | 0 => []
  | n + 1 => (value % 256) :: leBytes n (value / 256)

/-- Little-endian decoding of a byte list, the model of Python
`int.from_bytes(buffer, "little", signed=False)`. -/
def leValue : List Nat → Nat
  | [] => 0
  | b :: rest => b % 256 + 256 * leValue rest

/-- Read `size` bytes at `offset` from a byte list and decode them as a
little-endian unsigned integer. -/
def readLE (data : List Nat) (offset size : Nat) : Nat :=
  leValue ((data.drop offset).take size)

/-- Overwrite the bytes of `content` starting at `pos` with `bs`,
extending (zero-padded) when the write reaches past the end.  This is the
model of writing to a `BytesIO` at a given seek position. -/
def writeAt (content : List Nat) (pos : Nat) (bs : List Nat) : List Nat :=
  (content.take pos ++ List.replicate (pos - content.length) 0)
    ++ bs ++ content.drop (pos + bs.length)

/-- A seekable in-memory byte stream: the contents and the current
position.  Models a Python `BytesIO` handle. -/
structure WStream where
  data : List Nat
  pos : Nat
  deriving Repr, DecidableEq

/-- A fresh empty stream, as produced by `BytesIO()`. -/
def WStream.empty : WStream := ⟨[], 0⟩

/-- Write bytes at the current position and advance it, the model of
`handle.write(buffer)`. -/
def WStream.write (s : WStream) (bs : List Nat) : WStream :=
  ⟨writeAt s.data s.pos bs, s.pos + bs.length⟩

/-- Move the stream position, the model of `handle.seek(pos)`. -/
def WStream.seek (s : WStream) (pos : Nat) : WStream :=
  ⟨s.data, pos⟩

/-- The current position, the model of `handle.tell()`. -/
def WStream.tell (s : WStream) : Nat := s.pos

/-- Modelled from the spec: the `StorageType` enum of `relic.sga.core`
(a dependency outside this repository): 0 = STORE, 1 = STREAM_COMPRESS,
2 = BUFFER_COMPRESS. -/
inductive StorageType where
  | STORE
  | STREAM_COMPRESS
  | BUFFER_COMPRESS
  deriving Repr, DecidableEq

/-- The integer value of a `StorageType` member. -/
def StorageType.toNat : StorageType → Nat
  | .STORE => 0
  | .STREAM_COMPRESS => 1
  | .BUFFER_COMPRESS => 2

/-- Modelled from the spec: the Python enum call `StorageType(value)`,
which raises `ValueError` (here `none`) for values outside 0, 1, 2. -/
def StorageType.ofValue : Nat → Option StorageType
  | 0 => some .STORE
  | 1 => some .STREAM_COMPRESS
  | 2 => some .BUFFER_COMPRESS
  | _ => none

/-- The `SgaV2GameFormat` enum of `serialization.py`. -/
inductive SgaV2GameFormat where
  | DawnOfWar
  | ImpossibleCreatures
  | Unknown
  deriving Repr, DecidableEq

/-! ### ToC header and game-format detection (`SgaTocV2`) -/

/-- The decoded fields of the 24-byte V2 ToC header
(`SgaTocHeaderV2`): four little-endian (u32 offset, u16 count) pairs for
the drive, folder, file and name tables.  Offsets are relative to the
fixed ToC position 180. -/
structure SgaTocHeaderV2 where
  driveOffset : Nat
  driveCount : Nat
  folderOffset : Nat
  folderCount : Nat
  fileOffset : Nat
  fileCount : Nat
  nameOffset : Nat
  nameCount : Nat
  deriving Repr, DecidableEq

/-- `SgaTocV2._determine_next_header_block_ptr`: the smallest of the four
table offsets that lies strictly between `index` and the running minimum,
starting from `tocEnd`. -/
def determineNextHeaderBlockPtr (header : SgaTocHeaderV2) (tocEnd : Nat)
    (index : Int) : Nat :=
  let ptrs : List Nat := [header.driveOffset, header.folderOffset,
                          header.fileOffset, header.nameOffset]
  ptrs.foldl
    (fun (smallest ptr : Nat) =>
      if index < (ptr : Int) then (if ptr < smallest then ptr else smallest)
      else smallest)
    tocEnd

/-- The size in bytes of a Dawn-of-War ToC file record
(`SgaTocFileV2Dow._SIZE`). -/
def SgaTocFileV2Dow.SIZE : Nat := 20

/-- The size in bytes of an Impossible-Creatures ToC file record
(`SgaTocFileV2ImpCreatures._SIZE`). -/
def SgaTocFileV2ImpCreatures.SIZE : Nat := 17

/-- `SgaTocV2._determine_game`: determine the game variant from the file
table.  An empty file table yields `Unknown`; otherwise the file-block
size divided by the file count (exact rational division, the model of
Python float division which is exact at these magnitudes) must equal one
of the two record sizes, else a `RelicToolError` is raised (modelled as
`Except.error`). -/
def determineGame (header : SgaTocHeaderV2) (tocEnd : Nat) :
    Except String SgaV2GameFormat :=
  let fileBlockStart := header.fileOffset
  let fileCount := header.fileCount
  if fileCount = 0 then
    Except.ok SgaV2GameFormat.Unknown
  else
    let fileBlockEnd := determineNextHeaderBlockPtr header tocEnd
      (fileBlockStart : Int)
    let fileBlockSize : Int := (fileBlockEnd : Int) - (fileBlockStart : Int)
    let fileDefSize : Rat := (fileBlockSize : Rat) / (fileCount : Rat)
    if (SgaTocFileV2Dow.SIZE : Rat) = fileDefSize then
      Except.ok SgaV2GameFormat.DawnOfWar
    else if (SgaTocFileV2ImpCreatures.SIZE : Rat) = fileDefSize then
      Except.ok SgaV2GameFormat.ImpossibleCreatures
    else
      Except.error "Game format could not be determined"


/-! ### Concrete inputs used by witnesses and counterexamples -/

/-- A concrete ToC header whose file table is empty (file count 0). -/
def hdrFileCountZero : SgaTocHeaderV2 := ⟨24, 1, 36, 1, 48, 0, 48, 5⟩

/-- A concrete ToC header with 2 file records in a 40-byte file block
(quotient 20, the Dawn-of-War layout). -/
def hdrFileDow : SgaTocHeaderV2 := ⟨24, 1, 30, 1, 42, 2, 82, 5⟩

/-- A concrete ToC header with 2 file records in a 34-byte file block
(quotient 17, the Impossible-Creatures layout). -/
def hdrFileIc : SgaTocHeaderV2 := ⟨24, 1, 30, 1, 42, 2, 76, 5⟩

/-- A concrete ToC header with 2 file records in a 38-byte file block
(quotient 19, matching neither layout). -/
def hdrFileBad : SgaTocHeaderV2 := ⟨24, 1, 30, 1, 42, 2, 80, 5⟩


/-! ### ToC file records (`_SgaTocFileV2` and its two layouts) -/

/-- `_SgaTocFileV2._STORAGE_TYPE_MASK` (0xF0). -/
def STORAGE_TYPE_MASK : Nat := 0xF0

/-- `_SgaTocFileV2._STORAGE_TYPE_SHIFT` (4). -/
def STORAGE_TYPE_SHIFT : Nat := 4

/-- The body of the `_SgaTocFileV2.storage_type` getter: mask bits 4-7 of
the flags field, shift right by 4 and interpret as a `StorageType`.  This
shared implementation is inherited by BOTH record layouts —
`SgaTocFileV2ImpCreatures` does not override it. -/
def storageTypeGet (flagsField : Nat) : Option StorageType :=
  StorageType.ofValue ((flagsField &&& STORAGE_TYPE_MASK) >>> STORAGE_TYPE_SHIFT)

/-- `SgaTocFileV2Dow.storage_type`: the DOW layout reads its flags field
as the 4-byte little-endian integer at offset 4 of the 20-byte record. -/
def SgaTocFileV2Dow.storage_type (record : List Nat) : Option StorageType :=
  storageTypeGet (readLE record 4 4)

/-- `SgaTocFileV2ImpCreatures.storage_type`: the IC layout reads its
flags field as the single byte at offset 4 of the 17-byte record, then
applies the inherited mask-and-shift getter. -/
def SgaTocFileV2ImpCreatures.storage_type (record : List Nat) :
    Option StorageType :=
  storageTypeGet (readLE record 4 1)

/-- Assemble a 17-byte Impossible-Creatures file record from its field
values (name offset u32, flags u8, data offset u32, compressed size u32,
decompressed size u32, all little-endian). -/
def mkIcRecord (nameOffset flags dataOffset compSize decompSize : Nat) :
    List Nat :=
  leBytes 4 nameOffset ++ leBytes 1 flags ++ leBytes 4 dataOffset
    ++ leBytes 4 compSize ++ leBytes 4 decompSize

/-- Assemble a 20-byte Dawn-of-War file record from its field values
(name offset u32, flags u32, data offset u32, compressed size u32,
decompressed size u32, all little-endian). -/
def mkDowRecord (nameOffset flags dataOffset compSize decompSize : Nat) :
    List Nat :=
  leBytes 4 nameOffset ++ leBytes 4 flags ++ leBytes 4 dataOffset
    ++ leBytes 4 compSize ++ leBytes 4 decompSize


/-! ### Filesystem errors (`fs.errors` kinds used by the nodes) -/

/-- The error kinds raised by the filesystem layer, each carrying the
offending path or name. -/
inductive FsError where
  | resourceNotFound (path : String)
  | fileExpected (path : String)
  | directoryExpected (path : String)
  | directoryNotEmpty (path : String)
  | fileExists (path : String)
  | directoryExists (path : String)
  | removeRoot (path : String)
  | readOnlyLazyFile
  deriving Repr, DecidableEq

/-- Look up a key in an association list (the model of a Python dict,
which keeps insertion order and unique keys). -/
def alistGet {α : Type} (l : List (String × α)) (k : String) : Option α :=
  (l.find? (fun p => p.1 == k)).map (fun p => p.2)

/-- Membership test for the association-list dict model (`k in d`). -/
def alistContains {α : Type} (l : List (String × α)) (k : String) : Bool :=
  l.any (fun p => p.1 == k)

/-- Delete a key from the association-list dict model (`del d[k]`). -/
def alistErase {α : Type} (l : List (String × α)) (k : String) :
    List (String × α) :=
  l.filter (fun p => p.1 != k)

/-! ### In-memory folders (`SgaFsFolderV2Mem`) -/

/-- `SgaFsFolderV2Mem`: an in-memory folder with its name and the three
dicts kept by the Python class — `_children` (modelled by its key list;
the removal methods only ever test membership in it), `_folders` and
`_files` (modelled by its key list). -/
inductive SgaFsFolderV2Mem where
  | mk (name : String) (childKeys : List String)
       (folders : List (String × SgaFsFolderV2Mem))
       (fileKeys : List String)

/-- The folder's name. -/
def SgaFsFolderV2Mem.name : SgaFsFolderV2Mem → String
  | .mk n _ _ _ => n

/-- The key list of the folder's `_children` dict. -/
def SgaFsFolderV2Mem.childKeys : SgaFsFolderV2Mem → List String
  | .mk _ c _ _ => c

/-- The folder's `_folders` dict. -/
def SgaFsFolderV2Mem.folders :
    SgaFsFolderV2Mem → List (String × SgaFsFolderV2Mem)
  | .mk _ _ f _ => f

/-- The key list of the folder's `_files` dict. -/
def SgaFsFolderV2Mem.fileKeys : SgaFsFolderV2Mem → List String
  | .mk _ _ _ f => f

/-- `_SgaFsFolderV2.empty`: the base-class body is `pass`, which returns
Python `None`, and no subclass overrides the method — so every call
yields `None` (modelled as `none`) whatever the folder contains. -/
def SgaFsFolderV2Mem.empty (_self : SgaFsFolderV2Mem) : Option Bool :=
  none

/-- Python truthiness of an `Optional[bool]` value: `None` is falsy. -/
def pyTruthy : Option Bool → Bool
  | none => false
  | some b => b

/-- `SgaFsFolderV2Mem.remove_folder`: raise `ResourceNotFound` when the
name is not in `_children`, `DirectoryExpected` when it is not in
`_folders`, `DirectoryNotEmpty` when the child's `empty()` result is
falsy, else delete the entry from `_folders`. -/
def SgaFsFolderV2Mem.remove_folder (self : SgaFsFolderV2Mem)
    (name : String) : Except FsError SgaFsFolderV2Mem :=
  if ¬ self.childKeys.contains name then
    Except.error (FsError.resourceNotFound name)
  else if ¬ alistContains self.folders name then
    Except.error (FsError.directoryExpected name)
  else
    match alistGet self.folders name with
    | none => Except.error (FsError.resourceNotFound name)
    | some child =>
      if ¬ pyTruthy child.empty then
        Except.error (FsError.directoryNotEmpty name)
      else
        Except.ok (SgaFsFolderV2Mem.mk self.name self.childKeys
          (alistErase self.folders name) self.fileKeys)

/-- A concrete folder with no children at all. -/
def subEmptyFolder : SgaFsFolderV2Mem :=
  SgaFsFolderV2Mem.mk "sub" [] [] []

/-- A concrete parent folder whose only child is the empty folder
`subEmptyFolder` under the name `sub`. -/
def parentOfEmpty : SgaFsFolderV2Mem :=
  SgaFsFolderV2Mem.mk "" ["sub"] [("sub", subEmptyFolder)] []


/-! ### File nodes (`SgaFsFileV2Lazy`, `SgaFsFileV2Mem`, `SgaFsFileV2`) -/

/-- `SgaFsFileV2Lazy`: a file node backed by a window into the mapped
archive.  `name` and the header fields come from the ToC / 264-byte data
header (`_data_info`), `storageType` from the ToC record (`_info`), and
`payload` is the `compressed_size` byte window of the data block.
A `datetime` value is represented by its unix timestamp. -/
structure SgaFsFileV2Lazy where
  name : String
  storageType : StorageType
  headerModified : Nat
  headerCrc32 : Nat
  payload : List Nat
  deriving Repr, DecidableEq

/-- `SgaTocFileDataV2.data(decompress=True)` as seen by a lazy node:
the raw payload window for STORE, a zlib-decompressing reader otherwise
(`inflate` is the external zlib inflater). -/
def SgaFsFileV2Lazy.data (inflate : List Nat → List Nat)
    (f : SgaFsFileV2Lazy) : List Nat :=
  if f.storageType = StorageType.STORE then f.payload else inflate f.payload

/-- `SgaFsFileV2Lazy.openbin`: a writing mode raises the read-only-lazy
error (`RelicToolError: Cannot write to a lazy file!`); reading yields
the decompressed payload. -/
def SgaFsFileV2Lazy.openbin (inflate : List Nat → List Nat)
    (writing : Bool) (f : SgaFsFileV2Lazy) : Except FsError (List Nat) :=
  if writing then Except.error FsError.readOnlyLazyFile
  else Except.ok (f.data inflate)

/-- `SgaFsFileV2Mem`: a file node owning its bytes in memory. -/
structure SgaFsFileV2Mem where
  name : String
  storageType : StorageType
  modified : Nat
  handle : List Nat
  crc32 : Nat
  deriving Repr, DecidableEq

/-- `SgaFsFileV2Mem.__init__`: optional storage type defaults to STORE,
optional modified time defaults to the current time `now`, and an absent
CRC is recomputed over the data with the external CRC32 hasher. -/
def SgaFsFileV2Mem.create (crc32Hash : List Nat → Nat) (now : Nat)
    (name : String) (storageType : Option StorageType) (data : List Nat)
    (modified : Option Nat) (crc : Option Nat) : SgaFsFileV2Mem :=
  { name := name
    storageType := storageType.getD StorageType.STORE
    modified := modified.getD now
    handle := data
    crc32 := crc.getD (crc32Hash data) }

/-- `SgaFsFileV2Mem.openbin`: always succeeds and exposes the owned
handle. -/
def SgaFsFileV2Mem.openbin (_writing : Bool) (f : SgaFsFileV2Mem) :
    Except FsError (List Nat) :=
  Except.ok f.handle

/-- `SgaFsFileV2`: the facade node — either a lazy backing or an
in-memory backing (`_is_lazy` plus `_backing` in the Python class). -/
inductive SgaFsFileV2 where
  | lazy (backing : SgaFsFileV2Lazy)
  | mem (backing : SgaFsFileV2Mem)
  deriving Repr, DecidableEq

/-- The facade `name` property (delegates to the backing). -/
def SgaFsFileV2.name : SgaFsFileV2 → String
  | .lazy l => l.name
  | .mem m => m.name

/-- The facade `storage_type` property (delegates to the backing). -/
def SgaFsFileV2.storage_type : SgaFsFileV2 → StorageType
  | .lazy l => l.storageType
  | .mem m => m.storageType

/-- The facade `crc32` property (delegates to the backing). -/
def SgaFsFileV2.crc32 : SgaFsFileV2 → Nat
  | .lazy l => l.headerCrc32
  | .mem m => m.crc32

/-- The facade `modified` property (delegates to the backing; datetimes
are represented by their unix value). -/
def SgaFsFileV2.modified : SgaFsFileV2 → Nat
  | .lazy l => l.headerModified
  | .mem m => m.modified

/-- `SgaFsFileV2._unlazy`: a no-op on an in-memory node; a lazy node is
replaced by an in-memory node built from the lazy node's public
attributes and its decompressed payload (read through `openbin("r")`). -/
def SgaFsFileV2.unlazy (inflate : List Nat → List Nat)
    (crc32Hash : List Nat → Nat) (now : Nat) : SgaFsFileV2 → SgaFsFileV2
  | .lazy l =>
    .mem (SgaFsFileV2Mem.create crc32Hash now l.name (some l.storageType)
      (l.data inflate) (some l.headerModified) (some l.headerCrc32))
  | .mem m => .mem m

/-- `SgaFsFileV2.openbin`: a writing mode first promotes the node
(`_unlazy`), then the backing's `openbin` runs; the possibly-promoted
node is returned alongside the stream contents. -/
def SgaFsFileV2.openbin (inflate : List Nat → List Nat)
    (crc32Hash : List Nat → Nat) (now : Nat) (writing : Bool)
    (f : SgaFsFileV2) : SgaFsFileV2 × Except FsError (List Nat) :=
  let f2 := if writing then f.unlazy inflate crc32Hash now else f
  (f2, match f2 with
       | .lazy l => l.openbin inflate writing
       | .mem m => m.openbin writing)


/-! ### Facade tree and `EssenceFSV2._getnode` -/

/-- A node of the facade tree as traversed by `EssenceFSV2._getnode`:
a file leaf or a folder with its ordered child map. -/
inductive FsNode where
  | file (f : SgaFsFileV2)
  | folder (name : String) (children : List (String × FsNode))

/-- The `is_dir` flag of the node's basic info namespace. -/
def FsNode.isDir : FsNode → Bool
  | .file _ => false
  | .folder _ _ => true

/-- `get_child`: look the name up in the folder's child map. -/
def FsNode.getChild : FsNode → String → Option FsNode
  | .file _, _ => none
  | .folder _ cs, k => alistGet cs k

/-- The loop body of `EssenceFSV2._getnode_from_drive`: walk the path
components from the drive root; a missing intermediate node raises
`ResourceNotFound`, a non-directory intermediate raises
`DirectoryExpected`. -/
def getnodeLoop (pathStr : String) :
    Option FsNode → List String → Except FsError (Option FsNode)
  | cur, [] => Except.ok cur
  | none, _ :: _ => Except.error (FsError.resourceNotFound pathStr)
  | some cur, part :: rest =>
    if ¬ cur.isDir then Except.error (FsError.directoryExpected pathStr)
    else getnodeLoop pathStr (cur.getChild part) rest

/-- `EssenceFSV2._getnode_from_drive`: run the traversal loop and, when
`exists` was requested, turn a missing final node into
`ResourceNotFound`. -/
def getnodeFromDrive (root : FsNode) (pathStr : String)
    (parts : List String) (exists_ : Bool) : Except FsError (Option FsNode) :=
  match getnodeLoop pathStr (some root) parts with
  | Except.error e => Except.error e
  | Except.ok cur =>
    if exists_ && cur.isNone then
      Except.error (FsError.resourceNotFound pathStr)
    else Except.ok cur

/-- Does a result carry the `ResourceNotFound` error kind?  This is the
exception class caught by the drive-scanning loop of
`EssenceFSV2._getnode`. -/
def isResourceNotFound : Except FsError (Option FsNode) → Bool
  | Except.error (FsError.resourceNotFound _) => true
  | _ => false

/-- The unqualified-path loop of `EssenceFSV2._getnode`: probe the drives
in declaration order, skipping a drive only when its probe raises
`ResourceNotFound`; when every drive was skipped raise `ResourceNotFound`
for the whole path. -/
def searchDrives (pathStr : String) (parts : List String) (exists_ : Bool) :
    List (String × FsNode) → Except FsError (Option FsNode)
  | [] => Except.error (FsError.resourceNotFound pathStr)
  | (_, root) :: rest =>
    let r := getnodeFromDrive root pathStr parts exists_
    if isResourceNotFound r then searchDrives pathStr parts exists_ rest
    else r

/-- `EssenceFSV2._getnode`: an alias-qualified path resolves only inside
the drive registered under that alias (`ResourceNotFound` when the alias
is unknown); an unqualified path is searched across the drives in
declaration order. -/
def getnode (drives : List (String × FsNode)) (aliasPart : Option String)
    (pathStr : String) (parts : List String) (exists_ : Bool) :
    Except FsError (Option FsNode) :=
  match aliasPart with
  | some a =>
    match alistGet drives a with
    | none => Except.error (FsError.resourceNotFound pathStr)
    | some root => getnodeFromDrive root pathStr parts exists_
  | none => searchDrives pathStr parts exists_ drives

/-- Stated from the claim's words, for comparison: a drive "contains the
path" when every leading component names an existing child directory and
the full component list names an existing node. -/
def specDriveContainsPath : FsNode → List String → Bool
  | _, [] => true
  | .file _, _ :: _ => false
  | .folder _ cs, p :: rest =>
    match alistGet cs p with
    | none => false
    | some c => specDriveContainsPath c rest

/-- A concrete in-memory file node used to build example trees. -/
def memFileNode (nm : String) : SgaFsFileV2 :=
  SgaFsFileV2.mem ⟨nm, StorageType.STORE, 0, [], 0⟩

/-- Drive root holding a FILE named `x` (shadows the folder of
`rootXFolder` in an earlier drive). -/
def rootXFile : FsNode :=
  FsNode.folder "" [("x", FsNode.file (memFileNode "x"))]

/-- Drive root holding a folder `x` that contains a file `y`. -/
def rootXFolder : FsNode :=
  FsNode.folder ""
    [("x", FsNode.folder "x" [("y", FsNode.file (memFileNode "y"))])]

/-- Drive root holding a single file `shared.txt`. -/
def rootShared : FsNode :=
  FsNode.folder "" [("shared.txt", FsNode.file (memFileNode "shared.txt"))]

/-- An empty drive root. -/
def rootEmptyDrive : FsNode := FsNode.folder "" []


/-! ### Path resolver pieces and the packer name table -/

/-- `SgaPathResolver.fix_seperator`: replace every `/` with `\`.
Path strings are modelled as lists of characters. -/
def fixSeperator (path : List Char) : List Char :=
  path.map (fun c => if c = '/' then '\\' else c)

/-- Split a character list at the first `:`; `none` when there is no
colon (the model of `path.split(":", maxsplit=1)`). -/
def splitFirstColon : List Char → Option (List Char × List Char)
  | [] => none
  | c :: rest =>
    if c = ':' then some ([], rest)
    else match splitFirstColon rest with
      | none => none
      | some (a, b) => some (c :: a, b)

/-- `SgaPathResolver.parse`: split an optional `alias:` prefix off the
path. -/
def parseAlias (path : List Char) : Option (List Char) × List Char :=
  match splitFirstColon path with
  | some (a, rest) => (some a, rest)
  | none => (none, path)

/-- `SgaPathResolver.strip_root`: drop one leading `\`. -/
def stripRoot (path : List Char) : List Char :=
  match path with
  | c :: rest => if c = '\\' then rest else c :: rest
  | [] => []

/-- The normalization applied by `_V2TocDisassembler._write_name_to_table`
before the table lookup: separator fix, alias strip, root strip. -/
def normalizeName (name : List Char) : List Char :=
  stripRoot (parseAlias (fixSeperator name)).2

/-- `str.encode("ascii")`: succeeds only when every character is below
128, yielding one byte per character. -/
def asciiEncode (s : List Char) : Option (List Nat) :=
  if s.all (fun c => c.toNat < 128) then some (s.map Char.toNat) else none

/-- Association-list lookup keyed by character lists (the name table
dict). -/
def alookup (l : List (List Char × Nat)) (k : List Char) : Option Nat :=
  (l.find? (fun p => p.1 = k)).map (fun p => p.2)

/-- The name-table state of `_V2TocDisassembler`: the offset dict
(`name_table`, in insertion order) and the staged names block
(`name_block`). -/
structure NameTable where
  table : List (List Char × Nat)
  block : List Nat

/-- `_V2TocDisassembler._write_name_to_table`: normalize, look the name
up, and either return the recorded offset unchanged or record the
current end of the block, append the ASCII bytes plus a NUL and return
the new offset.  As in the Python code the dict entry is written before
the ASCII encoding runs, so a non-ASCII name leaves the entry behind and
raises (`Except.error`). -/
def writeNameToTable (st : NameTable) (name : List Char) :
    NameTable × Except String Nat :=
  match alookup st.table (normalizeName name) with
  | some index => (st, Except.ok index)
  | none =>
    match asciiEncode (normalizeName name) with
    | none =>
      (⟨st.table ++ [(normalizeName name, st.block.length)], st.block⟩,
       Except.error "UnicodeEncodeError")
    | some enc =>
      (⟨st.table ++ [(normalizeName name, st.block.length)],
        st.block ++ enc ++ [0]⟩,
       Except.ok st.block.length)

/-- The empty name-table state of a fresh disassembler. -/
def NameTable.empty : NameTable := ⟨[], []⟩



/-- Read a raw byte slice. -/
def bytesAt (data : List Nat) (off len : Nat) : List Nat :=
  (data.drop off).take len


/-! ### The packer data stream (`_V2TocDisassembler.write_data`) -/

/-- The size of the per-file data header (`SgaTocFileDataHeaderV2Dow._SIZE`;
the layout, also given by `LazySgaTocFileDataHeaderV2Dow.Meta` in
`serialization.py` and the spec, is name bytes at [0,256), modified u32
at 256, crc32 u32 at 260). -/
def DATA_HEADER_SIZE : Nat := 264

/-- A NUL-padded fixed-capacity string field write (the `CStringConverter`
behaviour; the caller must keep the encoded bytes within the capacity). -/
def cstringPad (size : Nat) (bs : List Nat) : List Nat :=
  bs ++ List.replicate (size - bs.length) 0

/-- `_V2TocDisassembler.write_data`: reserve a zeroed 264-byte data
header at the current end of the data block, rewrite it through a window
with the encoded file name, the modified timestamp and the CRC32 of the
uncompressed payload, then write the payload — raw for STORE (compressed
size = decompressed size), else the level-9 zlib deflate stream produced
by the external compressor `deflate9`.  Returns the stream plus
`(data_ptr, (decompressed_size, compressed_size))` where `data_ptr`
points at the payload (header start + 264). -/
def writeData (crc32Hash : List Nat → Nat) (deflate9 : List Nat → List Nat)
    (handle : WStream) (nameBytes : List Nat) (modified : Nat)
    (uncompressed : List Nat) (storageType : StorageType) :
    WStream × (Nat × (Nat × Nat)) :=
  let windowStart := handle.tell
  let h1 := handle.write (List.replicate DATA_HEADER_SIZE 0)
  let h2 : WStream :=
    ⟨writeAt h1.data windowStart (cstringPad 256 nameBytes), h1.pos⟩
  let h3 : WStream :=
    ⟨writeAt h2.data (windowStart + 256) (leBytes 4 modified), h2.pos⟩
  let h4 : WStream :=
    ⟨writeAt h3.data (windowStart + 260)
      (leBytes 4 (crc32Hash uncompressed)), h3.pos⟩
  let dataPtr := windowStart + DATA_HEADER_SIZE
  let h5 := h4.seek dataPtr
  if storageType = StorageType.STORE then
    (h5.write uncompressed,
     (dataPtr, (uncompressed.length, uncompressed.length)))
  else
    (h5.write (deflate9 uncompressed),
     (dataPtr, (uncompressed.length, (deflate9 uncompressed).length)))


/-! ### The three-pass serializer (`_SgaV2Serializer`) -/

/-- The staging streams and counts handed over by the disassembler
context (`_V2TocDisassembler.TocInfo`). -/
structure TocInfo where
  driveCount : Nat
  folderCount : Nat
  fileCount : Nat
  nameCount : Nat
  driveBlock : List Nat
  folderBlock : List Nat
  fileBlock : List Nat
  nameBlock : List Nat
  dataBlock : List Nat

/-- `_SgaV2Serializer.write_toc`: copy the four staged sub-blocks in
order at the current position, recording each start relative to the ToC
position 180, and return the new stream, the four relative offsets and
the number of copied bytes. -/
def writeToc (handle : WStream)
    (driveBlock folderBlock fileBlock nameBlock : List Nat) :
    WStream × ((Nat × Nat × Nat × Nat) × Nat) :=
  let p0 := handle.tell - 180
  let h1 := handle.write driveBlock
  let p1 := h1.tell - 180
  let h2 := h1.write folderBlock
  let p2 := h2.tell - 180
  let h3 := h2.write fileBlock
  let p3 := h3.tell - 180
  let h4 := h3.write nameBlock
  (h4, ((p0, p1, p2, p3), h4.tell - handle.tell))

/-- The back-patch pass of `write_toc_header`: write the four
(u32 offset, u16 count) little-endian pairs into the 24-byte window at
offset 180. -/
def writeTocHeaderFields (data : List Nat)
    (drivePos driveCount folderPos folderCount filePos fileCount
     namePos nameCount : Nat) : List Nat :=
  writeAt (writeAt (writeAt (writeAt (writeAt (writeAt (writeAt (writeAt
    data 180 (leBytes 4 drivePos)) 184 (leBytes 2 driveCount))
    186 (leBytes 4 folderPos)) 190 (leBytes 2 folderCount))
    192 (leBytes 4 filePos)) 196 (leBytes 2 fileCount))
    198 (leBytes 4 namePos)) 202 (leBytes 2 nameCount)

/-- The back-patch pass of `write_meta_block`: write the header fields
into the 168-byte window at offset 12 — file_md5 at 12, the NUL-padded
encoded archive name at 28, toc_md5 at 156, then data_pos (u32 at 176)
and toc_size (u32 at 172), in the order of the Python setter calls. -/
def writeMetaFields (data : List Nat) (fileMd5 nameEnc tocMd5 : List Nat)
    (dataPos tocSize : Nat) : List Nat :=
  writeAt (writeAt (writeAt (writeAt (writeAt
    data 12 fileMd5) 28 (cstringPad 128 nameEnc)) 156 tocMd5)
    176 (leBytes 4 dataPos)) 172 (leBytes 4 tocSize)

/-- `_SgaV2Serializer.write`, acting on the working handle: pass 1 writes
the magic word, the version and zero-filled archive and ToC headers
(checking the fixed positions 12, 180 and 204); pass 2 runs the
disassembler (whose failure, modelled by `Except.error`, aborts the
write), copies the four ToC sub-blocks recording their relative offsets,
notes `data_offset` as the position where the data block starts and
copies the data block; pass 3 back-patches the real ToC header at 180
and the archive header at 12 with the MD5 digests (computed by the
external hashers over the ranges starting at 180), `data_offset` and
`toc_size`.  Returns the stream reached so far plus an error, if any. -/
def serializerWrite (md5File md5Toc : List Nat → List Nat)
    (magic version nameEnc : List Nat)
    (disassembly : Except String TocInfo) (w : WStream) :
    WStream × Option String :=
  if w.tell ≠ 0 then
    (w, some "Writing an SGA to the middle of a file!")
  else
    let w1 := (w.write magic).write version
    if w1.tell ≠ 12 then
      (w1, some "The Serializer failed to write the Magic Word and Version!")
    else
      let w2 := w1.write (List.replicate 168 0)
      if w2.tell ≠ 180 then
        (w2, some "The Serializer failed to write the Archive Header!")
      else
        let w3 := w2.write (List.replicate 24 0)
        if w3.tell ≠ 204 then
          (w3, some "The Serializer failed to write the ToC Header!")
        else
          match disassembly with
          | Except.error e => (w3, some e)
          | Except.ok info =>
            let res := writeToc w3 info.driveBlock info.folderBlock
              info.fileBlock info.nameBlock
            let tocSize := res.2.2 + 24
            let dataOffset := res.1.tell
            let w4 := res.1.write info.dataBlock
            let w5 : WStream :=
              ⟨writeTocHeaderFields w4.data res.2.1.1 info.driveCount
                res.2.1.2.1 info.folderCount res.2.1.2.2.1 info.fileCount
                res.2.1.2.2.2 info.nameCount, w4.pos⟩
            let w6 : WStream :=
              ⟨writeMetaFields w5.data (md5File (w5.data.drop 180)) nameEnc
                (md5Toc ((w5.data.drop 180).take tocSize)) dataOffset tocSize,
               w5.pos⟩
            (w6, none)

/-- The working-handle choice of `_SgaV2Serializer.__init__`: an owned
in-memory buffer is used when safe mode is requested or the output
stream is not both writable and readable. -/
def workingIsBuffer (safeMode writable readable : Bool) : Bool :=
  safeMode || !(writable && readable)

/-- `_SgaV2Serializer` end to end: run `write` on the chosen working
handle; in buffer mode the buffer is copied onto the output stream only
when `write` finished without error, while in direct mode the output
stream itself is the working handle. -/
def serializerRun (md5File md5Toc : List Nat → List Nat)
    (magic version nameEnc : List Nat) (disassembly : Except String TocInfo)
    (safeMode writable readable : Bool) (out : WStream) :
    WStream × Option String :=
  if workingIsBuffer safeMode writable readable then
    let res := serializerWrite md5File md5Toc magic version nameEnc
      disassembly WStream.empty
    match res.2 with
    | some e => (out, some e)
    | none =>
      (⟨writeAt out.data out.pos res.1.data, out.pos + res.1.data.length⟩,
       none)
  else
    serializerWrite md5File md5Toc magic version nameEnc disassembly out


/-- A concrete tiny disassembly result: one drive record of 2 bytes, one
folder record of 1 byte, no file records, 3 name bytes and 2 data bytes. -/
def wTocInfo : TocInfo := ⟨1, 1, 0, 2, [1, 2], [3], [], [4, 4, 4], [9, 9]⟩

/-! ## Theorems -/

/-- C5: when safe mode is requested, or the output stream is not both
writable and readable, the serializer works on an owned in-memory buffer
(`BytesIO`); the buffer is copied onto the output stream only when the
write pass finished without error, so an error raised during passes 2-3
(here: a failing disassembly or position check) leaves the output stream
exactly as it was. -/
theorem C5_safe_mode_atomic (md5File md5Toc : List Nat → List Nat)
    (magic version nameEnc : List Nat) (disassembly : Except String TocInfo)
    (safeMode writable readable : Bool) (out : WStream)
    (hbuf : safeMode = true ∨ ¬(writable = true ∧ readable = true)) :
    workingIsBuffer safeMode writable readable = true ∧
    (∀ e, (serializerWrite md5File md5Toc magic version nameEnc disassembly
        WStream.empty).2 = some e →
      serializerRun md5File md5Toc magic version nameEnc disassembly
        safeMode writable readable out = (out, some e)) ∧
    ((serializerWrite md5File md5Toc magic version nameEnc disassembly
        WStream.empty).2 = none →
      serializerRun md5File md5Toc magic version nameEnc disassembly
        safeMode writable readable out
      = (⟨writeAt out.data out.pos (serializerWrite md5File md5Toc magic
            version nameEnc disassembly WStream.empty).1.data,
          out.pos + (serializerWrite md5File md5Toc magic version nameEnc
            disassembly WStream.empty).1.data.length⟩, none)) := by
  have hb : workingIsBuffer safeMode writable readable = true := by
    cases safeMode <;> cases writable <;> cases readable <;>
      simp_all [workingIsBuffer]
  refine ⟨hb, fun e he => ?_, fun hn => ?_⟩
  · unfold serializerRun
    rw [hb]
    simp only [if_true]
    rw [he]
  · unfold serializerRun
    rw [hb]
    simp only [if_true]
    rw [hn]

set_option maxRecDepth 4096 in
/-- C5 witness: the atomicity theorem applied to a concrete
non-readable output stream holding three bytes and a disassembly that
fails: the output keeps its bytes and the error is reported. -/
theorem C5_safe_mode_atomic_witness :
    serializerRun (fun _ => List.replicate 16 0) (fun _ => List.replicate 16 0)
      (List.replicate 8 77) [2, 0, 0, 0] [97]
      (Except.error "disassembly failed") false true false ⟨[1, 2, 3], 0⟩
    = (⟨[1, 2, 3], 0⟩, some "disassembly failed") :=
  (C5_safe_mode_atomic (fun _ => List.replicate 16 0)
    (fun _ => List.replicate 16 0) (List.replicate 8 77) [2, 0, 0, 0] [97]
    (Except.error "disassembly failed") false true false ⟨[1, 2, 3], 0⟩
    (Or.inr (by simp))).2.1 "disassembly failed" (by rfl)

theorem leBytes_length (n v : Nat) : (leBytes n v).length = n := by
  induction n generalizing v with
  | zero => rfl
  | succ k ih => simp [leBytes, ih]

theorem leValue_leBytes (n v : Nat) : leValue (leBytes n v) = v % 256 ^ n := by
  induction n generalizing v with
  | zero => simp [leBytes, leValue, Nat.mod_one]
  | succ k ih =>
    have h256 : (256 : Nat) ^ (k + 1) = 256 * 256 ^ k := by ring
    rw [leBytes, leValue, ih, h256, Nat.mod_mul]
    omega

theorem writeAt_prefix_length (data : List Nat) (pos : Nat) :
    (data.take pos ++ List.replicate (pos - data.length) 0).length = pos := by
  simp [List.length_take]
  omega

theorem writeAt_append (data bs : List Nat) :
    writeAt data data.length bs = data ++ bs := by
  simp [writeAt, List.drop_eq_nil_of_le]

theorem bytesAt_append_middle (P Q T : List Nat) :
    bytesAt (P ++ (Q ++ T)) P.length Q.length = Q := by
  unfold bytesAt
  rw [List.drop_left, List.take_left]

theorem bytesAt_append_of_le (P X : List Nat) (q k : Nat)
    (h : q + k ≤ P.length) :
    bytesAt (P ++ X) q k = bytesAt P q k := by
  unfold bytesAt
  rw [List.drop_append_eq_append_drop]
  rw [List.take_append_eq_append_take]
  have h1 : (List.drop q P).length = P.length - q := by simp
  have h2 : k - (List.drop q P).length = 0 := by omega
  rw [h2]
  simp

theorem bytesAt_take (data : List Nat) (pos q k : Nat) (h : q + k ≤ pos) :
    bytesAt (data.take pos) q k = bytesAt data q k := by
  unfold bytesAt
  rw [List.drop_take, List.take_take]
  congr 1
  omega

theorem bytesAt_writeAt_self (data bs : List Nat) (pos : Nat) :
    bytesAt (writeAt data pos bs) pos bs.length = bs := by
  have h := bytesAt_append_middle
    (data.take pos ++ List.replicate (pos - data.length) 0) bs
    (data.drop (pos + bs.length))
  rw [writeAt_prefix_length] at h
  unfold writeAt
  rw [List.append_assoc]
  exact h

theorem bytesAt_writeAt_before (data bs : List Nat) (pos q k : Nat)
    (hqk : q + k ≤ pos) (hlen : q + k ≤ data.length) :
    bytesAt (writeAt data pos bs) q k = bytesAt data q k := by
  unfold writeAt
  rw [List.append_assoc]
  rw [bytesAt_append_of_le _ _ _ _ (by rw [writeAt_prefix_length]; exact hqk)]
  rw [bytesAt_append_of_le _ _ _ _ (by simp [List.length_take]; omega)]
  exact bytesAt_take data pos q k hqk

theorem bytesAt_writeAt_after (data bs : List Nat) (pos q k : Nat)
    (hq : pos + bs.length ≤ q) :
    bytesAt (writeAt data pos bs) q k = bytesAt data q k := by
  unfold writeAt bytesAt
  rw [List.append_assoc]
  rw [List.drop_append_eq_append_drop]
  have h1 : List.drop q (data.take pos ++ List.replicate (pos - data.length) 0)
      = [] := by
    apply List.drop_eq_nil_of_le
    rw [writeAt_prefix_length]
    omega
  rw [h1, writeAt_prefix_length, List.nil_append]
  rw [List.drop_append_eq_append_drop]
  have h2 : List.drop (q - pos) bs = [] := by
    apply List.drop_eq_nil_of_le
    omega
  rw [h2, List.nil_append, List.drop_drop]
  congr 2
  omega


theorem cstringPad_length (size : Nat) (bs : List Nat)
    (h : bs.length ≤ size) : (cstringPad size bs).length = size := by
  simp [cstringPad]
  omega

theorem writeAt_append_chunk (A B C : List Nat) :
    writeAt (A ++ B) A.length C = A ++ (C ++ B.drop C.length) := by
  unfold writeAt
  rw [List.take_left]
  have h0 : A.length - (A ++ B).length = 0 := by simp
  rw [h0, List.replicate_zero, List.append_nil]
  rw [List.drop_append_eq_append_drop]
  have h1 : List.drop (A.length + C.length) A = [] :=
    List.drop_eq_nil_of_le (by omega)
  rw [h1, List.nil_append]
  have h2 : A.length + C.length - A.length = C.length := by omega
  rw [h2, List.append_assoc]

theorem writeData_core (handle : List Nat) (hpos : Nat)
    (hp : hpos = handle.length) (nameBytes : List Nat) (modified crc : Nat)
    (hname : nameBytes.length ≤ 256) (payload : List Nat) :
    writeAt (writeAt (writeAt (writeAt
        (writeAt handle hpos (List.replicate 264 0))
        hpos (cstringPad 256 nameBytes))
        (hpos + 256) (leBytes 4 modified))
        (hpos + 260) (leBytes 4 crc))
        (hpos + 264) payload
      = handle ++ cstringPad 256 nameBytes ++ leBytes 4 modified
        ++ leBytes 4 crc ++ payload := by
  have hcs : (cstringPad 256 nameBytes).length = 256 :=
    cstringPad_length 256 nameBytes hname
  have hm4 : (leBytes 4 modified).length = 4 := leBytes_length 4 modified
  have hc4 : (leBytes 4 crc).length = 4 := leBytes_length 4 crc
  rw [hp, writeAt_append]
  rw [writeAt_append_chunk]
  rw [hcs, List.drop_replicate]
  have e1 : (264 : Nat) - 256 = 8 := rfl
  rw [e1]
  rw [← List.append_assoc]
  have e2 : handle.length + 256
      = (handle ++ cstringPad 256 nameBytes).length := by simp [hcs]
  rw [e2, writeAt_append_chunk, hm4, List.drop_replicate]
  have e3 : (8 : Nat) - 4 = 4 := rfl
  rw [e3]
  rw [← List.append_assoc]
  have e4 : handle.length + 260
      = ((handle ++ cstringPad 256 nameBytes) ++ leBytes 4 modified).length := by
    simp [hcs, hm4]
  rw [e4, writeAt_append_chunk, hc4, List.drop_replicate]
  have e5 : (4 : Nat) - 4 = 0 := rfl
  rw [e5, List.replicate_zero, List.append_nil]
  have e6 : handle.length + 264
      = (((handle ++ cstringPad 256 nameBytes) ++ leBytes 4 modified)
          ++ leBytes 4 crc).length := by
    simp [hcs, hm4, hc4]
  rw [e6, writeAt_append]

/-- C6: the data-stream writer reserves a 264-byte header and rewrites it
with the padded name, the modified time and the CRC32 of the uncompressed
payload; the payload follows at the returned data offset, which is the
header start plus 264; STORE copies the payload raw with
compressed size = decompressed size, and any other storage type writes
the level-9 deflate stream of the payload. -/
theorem C6_write_data_layout (crc32Hash : List Nat → Nat)
    (deflate9 : List Nat → List Nat) (handle : WStream)
    (nameBytes : List Nat) (modified : Nat) (uncompressed : List Nat)
    (storageType : StorageType)
    (hpos : handle.pos = handle.data.length)
    (hname : nameBytes.length ≤ 256) :
    (writeData crc32Hash deflate9 handle nameBytes modified uncompressed
        storageType).1.data
      = handle.data ++ cstringPad 256 nameBytes ++ leBytes 4 modified
        ++ leBytes 4 (crc32Hash uncompressed)
        ++ (if storageType = StorageType.STORE then uncompressed
            else deflate9 uncompressed) ∧
    (writeData crc32Hash deflate9 handle nameBytes modified uncompressed
        storageType).2.1 = handle.tell + 264 ∧
    (writeData crc32Hash deflate9 handle nameBytes modified uncompressed
        storageType).2.2.1 = uncompressed.length ∧
    (storageType = StorageType.STORE →
      (writeData crc32Hash deflate9 handle nameBytes modified uncompressed
        storageType).2.2.2 = uncompressed.length) ∧
    (storageType ≠ StorageType.STORE →
      (writeData crc32Hash deflate9 handle nameBytes modified uncompressed
        storageType).2.2.2 = (deflate9 uncompressed).length) := by
  by_cases hst : storageType = StorageType.STORE
  · simp only [writeData, WStream.write, WStream.seek, WStream.tell,
      DATA_HEADER_SIZE, hst, if_pos rfl]
    refine ⟨writeData_core handle.data handle.pos hpos nameBytes modified
        (crc32Hash uncompressed) hname uncompressed, ?_, ?_, ?_, ?_⟩
    all_goals first
      | trivial
      | (intro h; trivial)
  · simp only [writeData, WStream.write, WStream.seek, WStream.tell,
      DATA_HEADER_SIZE, if_neg hst]
    refine ⟨writeData_core handle.data handle.pos hpos nameBytes modified
        (crc32Hash uncompressed) hname (deflate9 uncompressed), ?_, ?_, ?_, ?_⟩
    all_goals first
      | trivial
      | (intro h; trivial)


/-- C6 witness: the data-writer theorem applied to a concrete empty
stream, the one-byte name `a`, payload `[1, 2, 3]`, a stub CRC32 hasher
and a stub compressor, in both STORE and STREAM_COMPRESS modes. -/
theorem C6_write_data_layout_witness :
    (writeData (fun _ => 7) (fun _ => [9, 9]) ⟨[], 0⟩ [97] 5 [1, 2, 3]
        StorageType.STORE).1.data
      = cstringPad 256 [97] ++ leBytes 4 5 ++ leBytes 4 7 ++ [1, 2, 3] ∧
    (writeData (fun _ => 7) (fun _ => [9, 9]) ⟨[], 0⟩ [97] 5 [1, 2, 3]
        StorageType.STORE).2.1 = 264 ∧
    (writeData (fun _ => 7) (fun _ => [9, 9]) ⟨[], 0⟩ [97] 5 [1, 2, 3]
        StorageType.STORE).2.2.2 = 3 ∧
    (writeData (fun _ => 7) (fun _ => [9, 9]) ⟨[], 0⟩ [97] 5 [1, 2, 3]
        StorageType.STREAM_COMPRESS).2.2.2 = 2 := by
  have hStore := C6_write_data_layout (fun _ => 7) (fun _ => [9, 9])
    ⟨[], 0⟩ [97] 5 [1, 2, 3] StorageType.STORE rfl (by decide)
  have hStream := C6_write_data_layout (fun _ => 7) (fun _ => [9, 9])
    ⟨[], 0⟩ [97] 5 [1, 2, 3] StorageType.STREAM_COMPRESS rfl (by decide)
  refine ⟨hStore.1.trans (by rfl), hStore.2.1.trans (by rfl),
          (hStore.2.2.2.1 rfl).trans (by rfl),
          (hStream.2.2.2.2 (by decide)).trans (by rfl)⟩


theorem alookup_append_single (t : List (List Char × Nat)) (k : List Char)
    (i : Nat) (h : alookup t k = none) :
    alookup (t ++ [(k, i)]) k = some i := by
  induction t with
  | nil => simp [alookup]
  | cons p rest ih =>
    unfold alookup at h ⊢
    by_cases hp : p.1 = k
    · simp [List.find?, hp] at h
    · simp only [List.cons_append, List.find?]
      simp only [List.find?] at h
      rw [decide_eq_false hp] at h ⊢
      exact ih h

/-- C8: the packer's name table deduplicates.  A name whose normalized
form is already recorded is answered with the recorded offset and the
names block is left untouched; a fresh name is recorded at the current
end of the block and its ASCII bytes plus a NUL terminator are appended;
writing any name with the same normalized form again afterwards returns
the same offset and appends nothing. -/
theorem C8_name_table_dedup (st : NameTable) (name fresh : List Char) :
    (∀ idx, alookup st.table (normalizeName name) = some idx →
      writeNameToTable st name = (st, Except.ok idx)) ∧
    (alookup st.table (normalizeName fresh) = none →
      ∀ enc, asciiEncode (normalizeName fresh) = some enc →
      writeNameToTable st fresh =
        (⟨st.table ++ [(normalizeName fresh, st.block.length)],
          st.block ++ enc ++ [0]⟩,
         Except.ok st.block.length)) ∧
    (alookup st.table (normalizeName fresh) = none →
      ∀ enc, asciiEncode (normalizeName fresh) = some enc →
      ∀ name2, normalizeName name2 = normalizeName fresh →
      writeNameToTable (writeNameToTable st fresh).1 name2 =
        ((writeNameToTable st fresh).1, Except.ok st.block.length)) := by
  refine ⟨fun idx h => ?_, fun hfresh enc henc => ?_, fun hfresh enc henc name2 hnorm => ?_⟩
  · unfold writeNameToTable
    rw [h]
  · unfold writeNameToTable
    rw [hfresh, henc]
  · have hwrite : writeNameToTable st fresh =
        (⟨st.table ++ [(normalizeName fresh, st.block.length)],
          st.block ++ enc ++ [0]⟩,
         Except.ok st.block.length) := by
      unfold writeNameToTable
      rw [hfresh, henc]
    rw [hwrite]
    unfold writeNameToTable
    rw [hnorm, alookup_append_single _ _ _ hfresh]

/-- C8 witness: the deduplication theorem applied to the empty table and
the name `data:\tool\a.txt` — whose normalized form is `tool\a.txt` —
written once fresh and then looked up again both as itself and as the
separator variant `tool/a.txt`. -/
theorem C8_name_table_dedup_witness :
    writeNameToTable NameTable.empty
        (String.toList "data:\\tool\\a.txt") =
      (⟨[(String.toList "tool\\a.txt", 0)],
        (String.toList "tool\\a.txt").map Char.toNat ++ [0]⟩,
       Except.ok 0) ∧
    writeNameToTable
        (writeNameToTable NameTable.empty
          (String.toList "data:\\tool\\a.txt")).1
        (String.toList "tool/a.txt") =
      ((writeNameToTable NameTable.empty
          (String.toList "data:\\tool\\a.txt")).1,
       Except.ok 0) := by
  constructor
  · have h := (C8_name_table_dedup NameTable.empty
      (String.toList "data:\\tool\\a.txt")
      (String.toList "data:\\tool\\a.txt")).2.1 rfl
      ((String.toList "tool\\a.txt").map Char.toNat) (by decide)
    rw [h]
    rfl
  · have h := (C8_name_table_dedup NameTable.empty
      (String.toList "data:\\tool\\a.txt")
      (String.toList "data:\\tool\\a.txt")).2.2 rfl
      ((String.toList "tool\\a.txt").map Char.toNat) (by decide)
      (String.toList "tool/a.txt") (by decide)
    rw [h]
    rfl


theorem searchDrives_all_rnf (pathStr : String) (parts : List String)
    (ex : Bool) (drives : List (String × FsNode))
    (h : ∀ d ∈ drives,
      isResourceNotFound (getnodeFromDrive d.2 pathStr parts ex) = true) :
    searchDrives pathStr parts ex drives
      = Except.error (FsError.resourceNotFound pathStr) := by
  induction drives with
  | nil => rfl
  | cons d rest ih =>
    obtain ⟨nm, root⟩ := d
    have hd := h (nm, root) (List.mem_cons_self _ _)
    simp only [searchDrives, hd, if_pos]
    exact ih (fun e he => h e (List.mem_cons_of_mem _ he))

theorem searchDrives_first_hit (pathStr : String) (parts : List String)
    (ex : Bool) (pre : List (String × FsNode)) (d : String × FsNode)
    (post : List (String × FsNode))
    (hpre : ∀ e ∈ pre,
      isResourceNotFound (getnodeFromDrive e.2 pathStr parts ex) = true)
    (hd : isResourceNotFound (getnodeFromDrive d.2 pathStr parts ex) = false) :
    searchDrives pathStr parts ex (pre ++ d :: post)
      = getnodeFromDrive d.2 pathStr parts ex := by
  induction pre with
  | nil =>
    obtain ⟨nm, root⟩ := d
    simp only [List.nil_append, searchDrives]
    simp only [hd, Bool.false_eq_true, if_false]
  | cons e rest ih =>
    obtain ⟨nm, root⟩ := e
    have he := hpre (nm, root) (List.mem_cons_self _ _)
    simp only [List.cons_append, searchDrives, he, if_pos]
    exact ih (fun e2 he2 => hpre e2 (List.mem_cons_of_mem _ he2))

/-- C7 (amended): unqualified paths probe the drives in declaration
order; a drive is skipped only when its probe raises `ResourceNotFound`,
so the first drive whose probe does not raise `ResourceNotFound`
determines the result (even when that probe is itself an error such as
`DirectoryExpected`, which aborts the scan although a later drive may
contain the path); `ResourceNotFound` for the whole lookup arises exactly
when every drive's probe raised it; an alias-qualified path resolves only
within that drive, and an unknown alias raises `ResourceNotFound`. -/
theorem C7_getnode_drive_search (drives : List (String × FsNode))
    (pathStr : String) (parts : List String) (ex : Bool) :
    (∀ a, getnode drives (some a) pathStr parts ex
      = (match alistGet drives a with
         | none => Except.error (FsError.resourceNotFound pathStr)
         | some root => getnodeFromDrive root pathStr parts ex)) ∧
    ((∀ d ∈ drives,
        isResourceNotFound (getnodeFromDrive d.2 pathStr parts ex) = true) →
      getnode drives none pathStr parts ex
        = Except.error (FsError.resourceNotFound pathStr)) ∧
    (∀ pre d post, drives = pre ++ d :: post →
      (∀ e ∈ pre,
        isResourceNotFound (getnodeFromDrive e.2 pathStr parts ex) = true) →
      isResourceNotFound (getnodeFromDrive d.2 pathStr parts ex) = false →
      getnode drives none pathStr parts ex
        = getnodeFromDrive d.2 pathStr parts ex) := by
  refine ⟨fun a => rfl, fun h => searchDrives_all_rnf _ _ _ _ h,
          fun pre d post hsplit hpre hd => ?_⟩
  show searchDrives pathStr parts ex drives = _
  rw [hsplit]
  exact searchDrives_first_hit pathStr parts ex pre d post hpre hd

/-- C7 witness: the search theorem applied to a two-drive filesystem in
which only the second drive holds `shared.txt`, to an alias-qualified
lookup, and to an unknown alias. -/
theorem C7_getnode_drive_search_witness :
    getnode [("attrib", rootEmptyDrive), ("data", rootShared)] none
        "shared.txt" ["shared.txt"] true
      = getnodeFromDrive rootShared "shared.txt" ["shared.txt"] true ∧
    getnode [("attrib", rootEmptyDrive), ("data", rootShared)] none
        "nothere.txt" ["nothere.txt"] true
      = Except.error (FsError.resourceNotFound "nothere.txt") ∧
    getnode [("attrib", rootEmptyDrive), ("data", rootShared)]
        (some "data") "data:shared.txt" ["shared.txt"] true
      = getnodeFromDrive rootShared "data:shared.txt" ["shared.txt"] true ∧
    getnode [("attrib", rootEmptyDrive), ("data", rootShared)]
        (some "mods") "mods:shared.txt" ["shared.txt"] true
      = Except.error (FsError.resourceNotFound "mods:shared.txt") := by
  refine ⟨?_, ?_, ?_, ?_⟩
  · exact (C7_getnode_drive_search
      [("attrib", rootEmptyDrive), ("data", rootShared)]
      "shared.txt" ["shared.txt"] true).2.2
      [("attrib", rootEmptyDrive)] ("data", rootShared) [] rfl
      (by intro e he; simp at he; rw [he]; rfl) rfl
  · exact (C7_getnode_drive_search
      [("attrib", rootEmptyDrive), ("data", rootShared)]
      "nothere.txt" ["nothere.txt"] true).2.1
      (by intro d hd; simp at hd
          rcases hd with h1 | h2
          · rw [h1]; rfl
          · rw [h2]; rfl)
  · exact ((C7_getnode_drive_search
      [("attrib", rootEmptyDrive), ("data", rootShared)]
      "data:shared.txt" ["shared.txt"] true).1 "data").trans (by rfl)
  · exact ((C7_getnode_drive_search
      [("attrib", rootEmptyDrive), ("data", rootShared)]
      "mods:shared.txt" ["shared.txt"] true).1 "mods").trans (by rfl)

/-- C7 counterexample: with drive `a` holding a FILE named `x` and drive
`b` holding the directory path `x\y`, drive `b` contains the path, yet
the unqualified lookup of `x\y` raises `DirectoryExpected` from drive `a`
instead of returning drive `b`'s node — so the node of the first drive
containing the path is not what is returned. -/
theorem C7_shadowing_file_aborts_search :
    specDriveContainsPath rootXFolder ["x", "y"] = true ∧
    specDriveContainsPath rootXFile ["x", "y"] = false ∧
    getnode [("a", rootXFile), ("b", rootXFolder)] none "x\\y" ["x", "y"] true
      = Except.error (FsError.directoryExpected "x\\y") := by
  exact ⟨rfl, rfl, rfl⟩


/-- C9: opening a lazy file node with a writing mode raises the
read-only-lazy-file error, open in read mode yields the decompressed
payload, and the facade, asked to open for writing, first promotes the
node to memory and then succeeds with the same decompressed bytes. -/
theorem C9_lazy_open_write_protected (inflate : List Nat → List Nat)
    (crc32Hash : List Nat → Nat) (now : Nat) (l : SgaFsFileV2Lazy) :
    SgaFsFileV2Lazy.openbin inflate true l
      = Except.error FsError.readOnlyLazyFile ∧
    SgaFsFileV2Lazy.openbin inflate false l
      = Except.ok (if l.storageType = StorageType.STORE then l.payload
                   else inflate l.payload) ∧
    (SgaFsFileV2.openbin inflate crc32Hash now true (.lazy l)).1
      = SgaFsFileV2.unlazy inflate crc32Hash now (.lazy l) ∧
    (SgaFsFileV2.openbin inflate crc32Hash now true (.lazy l)).2
      = Except.ok (l.data inflate) := by
  refine ⟨rfl, rfl, rfl, ?_⟩
  simp [SgaFsFileV2.openbin, SgaFsFileV2.unlazy, SgaFsFileV2Mem.openbin,
        SgaFsFileV2Mem.create]

/-- C10: promoting a file node preserves every public attribute — name,
storage type, CRC32 and modified time are unchanged, reading the promoted
node yields the same decompressed bytes as reading the lazy node — and
promoting an already-promoted node is a no-op. -/
theorem C10_unlazy_preserves (inflate : List Nat → List Nat)
    (crc32Hash : List Nat → Nat) (now : Nat) (l : SgaFsFileV2Lazy)
    (m : SgaFsFileV2Mem) :
    (SgaFsFileV2.unlazy inflate crc32Hash now (.lazy l)).name
      = (SgaFsFileV2.lazy l).name ∧
    (SgaFsFileV2.unlazy inflate crc32Hash now (.lazy l)).storage_type
      = (SgaFsFileV2.lazy l).storage_type ∧
    (SgaFsFileV2.unlazy inflate crc32Hash now (.lazy l)).crc32
      = (SgaFsFileV2.lazy l).crc32 ∧
    (SgaFsFileV2.unlazy inflate crc32Hash now (.lazy l)).modified
      = (SgaFsFileV2.lazy l).modified ∧
    (SgaFsFileV2.openbin inflate crc32Hash now false
      (SgaFsFileV2.unlazy inflate crc32Hash now (.lazy l))).2
      = (SgaFsFileV2.openbin inflate crc32Hash now false (.lazy l)).2 ∧
    SgaFsFileV2.unlazy inflate crc32Hash now (.mem m) = .mem m := by
  refine ⟨rfl, rfl, rfl, rfl, ?_, rfl⟩
  simp [SgaFsFileV2.openbin, SgaFsFileV2.unlazy, SgaFsFileV2Mem.openbin,
        SgaFsFileV2Mem.create, SgaFsFileV2Lazy.openbin]


/-- C3: removing an existing, genuinely empty (no children of any kind)
child folder does NOT succeed: because `_SgaFsFolderV2.empty` falls
through to the base-class `pass` body (returning `None`, which is falsy),
`remove_folder` raises `DirectoryNotEmpty` even here.  Removing a missing
name still raises `ResourceNotFound` and removing a name bound to a file
still raises `DirectoryExpected`, as the claim states. -/
theorem C3_remove_empty_folder_raises :
    subEmptyFolder.childKeys = [] ∧
    subEmptyFolder.folders = [] ∧
    subEmptyFolder.fileKeys = [] ∧
    parentOfEmpty.remove_folder "sub"
      = Except.error (FsError.directoryNotEmpty "sub") ∧
    parentOfEmpty.remove_folder "missing"
      = Except.error (FsError.resourceNotFound "missing") ∧
    (SgaFsFolderV2Mem.mk "" ["a.txt"] [] ["a.txt"]).remove_folder "a.txt"
      = Except.error (FsError.directoryExpected "a.txt") := by
  exact ⟨rfl, rfl, rfl, rfl, rfl, rfl⟩


theorem and_f0_mod_two_pow (x n : Nat) (hn : 8 ≤ n) :
    x % 2 ^ n &&& 0xF0 = x &&& 0xF0 := by
  apply Nat.eq_of_testBit_eq
  intro i
  by_cases hi : i < 8
  · simp only [Nat.testBit_and, Nat.testBit_mod_two_pow]
    have : i < n := lt_of_lt_of_le hi hn
    simp [this]
  · have hbit : Nat.testBit 0xF0 i = false := by
      apply Nat.testBit_eq_false_of_lt
      calc (0xF0 : Nat) < 2 ^ 8 := by norm_num
        _ ≤ 2 ^ i := Nat.pow_le_pow_right (by norm_num) (Nat.le_of_not_lt hi)
    simp [Nat.testBit_and, hbit]

/-- C2 (amended): both record layouts extract the storage type from bits
4-7 of their flags field via the inherited mask-and-shift getter — the
IC one-byte flags field is NOT interpreted directly — and the two
layouts decode the same storage type from the same flags value. -/
theorem C2_storage_type_masked (n f d c dc : Nat) :
    SgaTocFileV2ImpCreatures.storage_type (mkIcRecord n f d c dc)
      = StorageType.ofValue ((f % 2 ^ 8 &&& 0xF0) >>> 4) ∧
    SgaTocFileV2Dow.storage_type (mkDowRecord n f d c dc)
      = StorageType.ofValue ((f % 2 ^ 32 &&& 0xF0) >>> 4) ∧
    SgaTocFileV2ImpCreatures.storage_type (mkIcRecord n f d c dc)
      = SgaTocFileV2Dow.storage_type (mkDowRecord n f d c dc) := by
  have hic : readLE (mkIcRecord n f d c dc) 4 1 = f % 2 ^ 8 := by
    simp [readLE, mkIcRecord, leBytes, leValue]
  have hdow : readLE (mkDowRecord n f d c dc) 4 4 = f % 2 ^ 32 := by
    simp [readLE, mkDowRecord, leBytes, leValue]
    omega
  refine ⟨?_, ?_, ?_⟩
  · rw [SgaTocFileV2ImpCreatures.storage_type, hic]
    rfl
  · rw [SgaTocFileV2Dow.storage_type, hdow]
    rfl
  · rw [SgaTocFileV2ImpCreatures.storage_type, SgaTocFileV2Dow.storage_type,
        hic, hdow]
    unfold storageTypeGet STORAGE_TYPE_MASK STORAGE_TYPE_SHIFT
    rw [and_f0_mod_two_pow f 8 (le_refl 8), and_f0_mod_two_pow f 32 (by norm_num)]

/-- C2 counterexample: an IC record whose flags byte is 1
(STREAM_COMPRESS under the direct interpretation the claim states) is
read back as STORE, because the inherited getter masks bits 4-7 and
shifts; the reading differs from the direct interpretation of the byte. -/
theorem C2_ic_not_direct :
    SgaTocFileV2ImpCreatures.storage_type (mkIcRecord 12 1 8 5 5)
      = some StorageType.STORE ∧
    StorageType.ofValue (readLE (mkIcRecord 12 1 8 5 5) 4 1)
      = some StorageType.STREAM_COMPRESS ∧
    SgaTocFileV2ImpCreatures.storage_type (mkIcRecord 12 1 8 5 5)
      ≠ StorageType.ofValue (readLE (mkIcRecord 12 1 8 5 5) 4 1) := by
  refine ⟨by decide, by decide, by decide⟩


theorem nat_eq_intCast_div (s : Int) (c k : Nat) (hc : c ≠ 0) :
    ((k : Rat) = (s : Rat) / (c : Rat)) ↔ s = (k : Int) * (c : Int) := by
  have hc2 : ((c : Nat) : Rat) ≠ 0 := Nat.cast_ne_zero.mpr hc
  rw [eq_div_iff hc2]
  constructor
  · intro h
    exact_mod_cast h.symm
  · intro h
    exact_mod_cast h.symm

/-- C1 (amended): game-format detection from the file table.  When the
file count is zero the variant is `Unknown` (not Dawn of War); otherwise
the result is Dawn of War exactly when the file block holds 20 bytes per
record, Impossible Creatures exactly when it holds 17 bytes per record,
and a fatal `RelicToolError` for any other quotient. -/
theorem C1_variant_detection (header : SgaTocHeaderV2) (tocEnd : Nat) :
    (header.fileCount = 0 →
      determineGame header tocEnd = Except.ok SgaV2GameFormat.Unknown) ∧
    (header.fileCount ≠ 0 →
      ((determineGame header tocEnd = Except.ok SgaV2GameFormat.DawnOfWar ↔
        (determineNextHeaderBlockPtr header tocEnd (header.fileOffset : Int) : Int)
          - (header.fileOffset : Int) = 20 * (header.fileCount : Int)) ∧
       (determineGame header tocEnd = Except.ok SgaV2GameFormat.ImpossibleCreatures ↔
        (determineNextHeaderBlockPtr header tocEnd (header.fileOffset : Int) : Int)
          - (header.fileOffset : Int) = 17 * (header.fileCount : Int)) ∧
       (determineGame header tocEnd =
          Except.error "Game format could not be determined" ↔
        ((determineNextHeaderBlockPtr header tocEnd (header.fileOffset : Int) : Int)
          - (header.fileOffset : Int) ≠ 20 * (header.fileCount : Int) ∧
         (determineNextHeaderBlockPtr header tocEnd (header.fileOffset : Int) : Int)
          - (header.fileOffset : Int) ≠ 17 * (header.fileCount : Int))))) := by
  constructor
  · intro h0
    unfold determineGame
    rw [if_pos h0]
  intro h
  unfold determineGame
  rw [if_neg h]
  simp only [SgaTocFileV2Dow.SIZE, SgaTocFileV2ImpCreatures.SIZE]
  split_ifs with hA hB
  · rw [nat_eq_intCast_div _ _ _ h] at hA
    refine ⟨⟨fun _ => ?_, fun _ => rfl⟩, ⟨fun hcon => by simp at hcon, fun h17 => ?_⟩,
            ⟨fun hcon => by simp at hcon, fun hne => ?_⟩⟩
    · push_cast at hA ⊢
      omega
    · push_cast at hA h17
      omega
    · exact absurd (by push_cast at hA ⊢; omega) hne.1
  · rw [nat_eq_intCast_div _ _ _ h] at hA
    rw [nat_eq_intCast_div _ _ _ h] at hB
    refine ⟨⟨fun hcon => by simp at hcon, fun h20 => ?_⟩, ⟨fun _ => ?_, fun _ => rfl⟩,
            ⟨fun hcon => by simp at hcon, fun hne => ?_⟩⟩
    · push_cast at hA h20
      omega
    · push_cast at hB ⊢
      omega
    · exact absurd (by push_cast at hB ⊢; omega) hne.2
  · rw [nat_eq_intCast_div _ _ _ h] at hA
    rw [nat_eq_intCast_div _ _ _ h] at hB
    refine ⟨⟨fun hcon => by simp at hcon, fun h20 => ?_⟩,
            ⟨fun hcon => by simp at hcon, fun h17 => ?_⟩,
            ⟨fun _ => ⟨?_, ?_⟩, fun _ => rfl⟩⟩
    · push_cast at hA h20
      omega
    · push_cast at hB h17
      omega
    · intro hcon
      push_cast at hA hcon
      omega
    · intro hcon
      push_cast at hB hcon
      omega

/-- C1 witness: the amended detection theorem applied to four concrete
headers — zero files, a 20-byte-per-record block, a 17-byte-per-record
block, and a 19-byte-per-record block. -/
theorem C1_variant_detection_witness :
    determineGame hdrFileCountZero 200 = Except.ok SgaV2GameFormat.Unknown ∧
    determineGame hdrFileDow 200 = Except.ok SgaV2GameFormat.DawnOfWar ∧
    determineGame hdrFileIc 200 = Except.ok SgaV2GameFormat.ImpossibleCreatures ∧
    determineGame hdrFileBad 200 =
      Except.error "Game format could not be determined" :=
  ⟨(C1_variant_detection hdrFileCountZero 200).1 rfl,
   (((C1_variant_detection hdrFileDow 200).2 (by decide)).1).mpr (by decide),
   (((C1_variant_detection hdrFileIc 200).2 (by decide)).2.1).mpr (by decide),
   (((C1_variant_detection hdrFileBad 200).2 (by decide)).2.2).mpr (by decide)⟩

/-- C1 counterexample: for a file table with zero file records the
reader reports the `Unknown` game format, not the Dawn-of-War default
the claim states. -/
theorem C1_zero_count_not_dow :
    determineGame hdrFileCountZero 200 = Except.ok SgaV2GameFormat.Unknown ∧
    determineGame hdrFileCountZero 200 ≠ Except.ok SgaV2GameFormat.DawnOfWar := by
  constructor
  · rfl
  · intro hcon
    simp [determineGame, hdrFileCountZero] at hcon


theorem readLE_eq_leValue_bytesAt (data : List Nat) (off size : Nat) :
    readLE data off size = leValue (bytesAt data off size) := rfl

theorem writeAt_of_length_eq (X bs : List Nat) (pos : Nat)
    (h : pos = X.length) : writeAt X pos bs = X ++ bs := by
  rw [h, writeAt_append]

theorem writeAt_length (data bs : List Nat) (pos : Nat) :
    (writeAt data pos bs).length = max (pos + bs.length) data.length := by
  unfold writeAt
  simp [List.length_take]
  omega

theorem readLE_writeAt_self (data bs : List Nat) (pos n : Nat)
    (h : bs.length = n) :
    readLE (writeAt data pos bs) pos n = leValue bs := by
  rw [readLE_eq_leValue_bytesAt, ← h, bytesAt_writeAt_self]

theorem readLE_writeAt_after (data bs : List Nat) (pos q k : Nat)
    (h : pos + bs.length ≤ q) :
    readLE (writeAt data pos bs) q k = readLE data q k := by
  rw [readLE_eq_leValue_bytesAt, readLE_eq_leValue_bytesAt,
      bytesAt_writeAt_after data bs pos q k h]

theorem readLE_writeAt_before (data bs : List Nat) (pos q k : Nat)
    (h1 : q + k ≤ pos) (h2 : q + k ≤ data.length) :
    readLE (writeAt data pos bs) q k = readLE data q k := by
  rw [readLE_eq_leValue_bytesAt, readLE_eq_leValue_bytesAt,
      bytesAt_writeAt_before data bs pos q k h1 h2]

theorem bytesAt_append_right (P Q : List Nat) :
    bytesAt (P ++ Q) P.length Q.length = Q := by
  unfold bytesAt
  rw [List.drop_left, List.take_length]

theorem readLE_writeMetaFields_at172 (data fM nE tM : List Nat)
    (dpos tsz : Nat) :
    readLE (writeMetaFields data fM nE tM dpos tsz) 172 4 = tsz % 2 ^ 32 := by
  unfold writeMetaFields
  rw [readLE_writeAt_self _ _ _ _ (leBytes_length 4 tsz), leValue_leBytes]
  norm_num

theorem readLE_writeMetaFields_at176 (data fM nE tM : List Nat)
    (dpos tsz : Nat) :
    readLE (writeMetaFields data fM nE tM dpos tsz) 176 4 = dpos % 2 ^ 32 := by
  unfold writeMetaFields
  rw [readLE_writeAt_after _ _ _ _ _ (by simp [leBytes_length])]
  rw [readLE_writeAt_self _ _ _ _ (leBytes_length 4 dpos), leValue_leBytes]
  norm_num

theorem bytesAt_writeMetaFields_high (data fM nE tM : List Nat)
    (dpos tsz q k : Nat) (hf : fM.length = 16) (hn : nE.length ≤ 128)
    (ht : tM.length = 16) (hq : 180 ≤ q) :
    bytesAt (writeMetaFields data fM nE tM dpos tsz) q k
      = bytesAt data q k := by
  unfold writeMetaFields
  rw [bytesAt_writeAt_after _ _ _ _ _ (by simp [leBytes_length]; omega)]
  rw [bytesAt_writeAt_after _ _ _ _ _ (by simp [leBytes_length]; omega)]
  rw [bytesAt_writeAt_after _ _ _ _ _ (by rw [ht]; omega)]
  rw [bytesAt_writeAt_after _ _ _ _ _
    (by rw [cstringPad_length _ _ hn]; omega)]
  rw [bytesAt_writeAt_after _ _ _ _ _ (by rw [hf]; omega)]

theorem readLE_writeMetaFields_high (data fM nE tM : List Nat)
    (dpos tsz q k : Nat) (hf : fM.length = 16) (hn : nE.length ≤ 128)
    (ht : tM.length = 16) (hq : 180 ≤ q) :
    readLE (writeMetaFields data fM nE tM dpos tsz) q k
      = readLE data q k := by
  rw [readLE_eq_leValue_bytesAt, readLE_eq_leValue_bytesAt,
      bytesAt_writeMetaFields_high data fM nE tM dpos tsz q k hf hn ht hq]

theorem writeTocHeaderFields_reads (data : List Nat)
    (dP dC fP fC fiP fiC nP nC : Nat) (hlen : 204 ≤ data.length) :
    readLE (writeTocHeaderFields data dP dC fP fC fiP fiC nP nC) 180 4
      = dP % 2 ^ 32 ∧
    readLE (writeTocHeaderFields data dP dC fP fC fiP fiC nP nC) 186 4
      = fP % 2 ^ 32 ∧
    readLE (writeTocHeaderFields data dP dC fP fC fiP fiC nP nC) 192 4
      = fiP % 2 ^ 32 ∧
    readLE (writeTocHeaderFields data dP dC fP fC fiP fiC nP nC) 198 4
      = nP % 2 ^ 32 ∧
    (∀ q k, 204 ≤ q →
      bytesAt (writeTocHeaderFields data dP dC fP fC fiP fiC nP nC) q k
        = bytesAt data q k) := by
  have hT1 : (writeAt data 180 (leBytes 4 dP)).length = data.length := by
    rw [writeAt_length, leBytes_length]
    omega
  have hT2 : (writeAt (writeAt data 180 (leBytes 4 dP)) 184
      (leBytes 2 dC)).length = data.length := by
    rw [writeAt_length, leBytes_length, hT1]
    omega
  have hT3 : (writeAt (writeAt (writeAt data 180 (leBytes 4 dP)) 184
      (leBytes 2 dC)) 186 (leBytes 4 fP)).length = data.length := by
    rw [writeAt_length, leBytes_length, hT2]
    omega
  have hT4 : (writeAt (writeAt (writeAt (writeAt data 180 (leBytes 4 dP))
      184 (leBytes 2 dC)) 186 (leBytes 4 fP)) 190
      (leBytes 2 fC)).length = data.length := by
    rw [writeAt_length, leBytes_length, hT3]
    omega
  have hT5 : (writeAt (writeAt (writeAt (writeAt (writeAt data 180
      (leBytes 4 dP)) 184 (leBytes 2 dC)) 186 (leBytes 4 fP)) 190
      (leBytes 2 fC)) 192 (leBytes 4 fiP)).length = data.length := by
    rw [writeAt_length, leBytes_length, hT4]
    omega
  have hT6 : (writeAt (writeAt (writeAt (writeAt (writeAt (writeAt data 180
      (leBytes 4 dP)) 184 (leBytes 2 dC)) 186 (leBytes 4 fP)) 190
      (leBytes 2 fC)) 192 (leBytes 4 fiP)) 196
      (leBytes 2 fiC)).length = data.length := by
    rw [writeAt_length, leBytes_length, hT5]
    omega
  have hT7 : (writeAt (writeAt (writeAt (writeAt (writeAt (writeAt (writeAt
      data 180 (leBytes 4 dP)) 184 (leBytes 2 dC)) 186 (leBytes 4 fP)) 190
      (leBytes 2 fC)) 192 (leBytes 4 fiP)) 196 (leBytes 2 fiC)) 198
      (leBytes 4 nP)).length = data.length := by
    rw [writeAt_length, leBytes_length, hT6]
    omega
  refine ⟨?_, ?_, ?_, ?_, ?_⟩
  · unfold writeTocHeaderFields
    rw [readLE_writeAt_before _ _ _ _ _ (by simp [leBytes_length])
      (by rw [hT7]; omega)]
    rw [readLE_writeAt_before _ _ _ _ _ (by simp [leBytes_length])
      (by rw [hT6]; omega)]
    rw [readLE_writeAt_before _ _ _ _ _ (by simp [leBytes_length])
      (by rw [hT5]; omega)]
    rw [readLE_writeAt_before _ _ _ _ _ (by simp [leBytes_length])
      (by rw [hT4]; omega)]
    rw [readLE_writeAt_before _ _ _ _ _ (by simp [leBytes_length])
      (by rw [hT3]; omega)]
    rw [readLE_writeAt_before _ _ _ _ _ (by simp [leBytes_length])
      (by rw [hT2]; omega)]
    rw [readLE_writeAt_before _ _ _ _ _ (by simp [leBytes_length])
      (by rw [hT1]; omega)]
    rw [readLE_writeAt_self _ _ _ _ (leBytes_length 4 dP), leValue_leBytes]
    norm_num
  · unfold writeTocHeaderFields
    rw [readLE_writeAt_before _ _ _ _ _ (by simp [leBytes_length])
      (by rw [hT7]; omega)]
    rw [readLE_writeAt_before _ _ _ _ _ (by simp [leBytes_length])
      (by rw [hT6]; omega)]
    rw [readLE_writeAt_before _ _ _ _ _ (by simp [leBytes_length])
      (by rw [hT5]; omega)]
    rw [readLE_writeAt_before _ _ _ _ _ (by simp [leBytes_length])
      (by rw [hT4]; omega)]
    rw [readLE_writeAt_before _ _ _ _ _ (by simp [leBytes_length])
      (by rw [hT3]; omega)]
    rw [readLE_writeAt_self _ _ _ _ (leBytes_length 4 fP), leValue_leBytes]
    norm_num
  · unfold writeTocHeaderFields
    rw [readLE_writeAt_before _ _ _ _ _ (by simp [leBytes_length])
      (by rw [hT7]; omega)]
    rw [readLE_writeAt_before _ _ _ _ _ (by simp [leBytes_length])
      (by rw [hT6]; omega)]
    rw [readLE_writeAt_before _ _ _ _ _ (by simp [leBytes_length])
      (by rw [hT5]; omega)]
    rw [readLE_writeAt_self _ _ _ _ (leBytes_length 4 fiP), leValue_leBytes]
    norm_num
  · unfold writeTocHeaderFields
    rw [readLE_writeAt_before _ _ _ _ _ (by simp [leBytes_length])
      (by rw [hT7]; omega)]
    rw [readLE_writeAt_self _ _ _ _ (leBytes_length 4 nP), leValue_leBytes]
    norm_num
  · intro q k hq
    unfold writeTocHeaderFields
    rw [bytesAt_writeAt_after _ _ _ _ _ (by simp [leBytes_length]; omega)]
    rw [bytesAt_writeAt_after _ _ _ _ _ (by simp [leBytes_length]; omega)]
    rw [bytesAt_writeAt_after _ _ _ _ _ (by simp [leBytes_length]; omega)]
    rw [bytesAt_writeAt_after _ _ _ _ _ (by simp [leBytes_length]; omega)]
    rw [bytesAt_writeAt_after _ _ _ _ _ (by simp [leBytes_length]; omega)]
    rw [bytesAt_writeAt_after _ _ _ _ _ (by simp [leBytes_length]; omega)]
    rw [bytesAt_writeAt_after _ _ _ _ _ (by simp [leBytes_length]; omega)]
    rw [bytesAt_writeAt_after _ _ _ _ _ (by simp [leBytes_length]; omega)]


set_option maxRecDepth 8192 in
set_option maxHeartbeats 2000000 in
/-- C4: after the serializer's write pass on a fresh working stream, the
back-patched archive header stores toc_size = 24 + (total sub-block
bytes), i.e. the bytes between offset 180 and the data block, stores
data_offset = 204 + (total sub-block bytes), the position where the data
block begins (the data block bytes indeed sit there), and the four ToC
sub-block offsets at 180/186/192/198 are each relative to offset 180. -/
theorem C4_backpatch_header (md5File md5Toc : List Nat → List Nat)
    (magic version nameEnc : List Nat) (info : TocInfo)
    (hmagic : magic.length = 8) (hversion : version.length = 4)
    (hname : nameEnc.length ≤ 128)
    (hmd5f : ∀ x, (md5File x).length = 16)
    (hmd5t : ∀ x, (md5Toc x).length = 16) :
    (serializerWrite md5File md5Toc magic version nameEnc
      (Except.ok info) WStream.empty).2 = none ∧
    (readLE (serializerWrite md5File md5Toc magic version nameEnc
        (Except.ok info) WStream.empty).1.data 172 4
      = (24 + info.driveBlock.length + info.folderBlock.length
          + info.fileBlock.length + info.nameBlock.length) % 2 ^ 32 ∧
    readLE (serializerWrite md5File md5Toc magic version nameEnc
        (Except.ok info) WStream.empty).1.data 176 4
      = (204 + info.driveBlock.length + info.folderBlock.length
          + info.fileBlock.length + info.nameBlock.length) % 2 ^ 32 ∧
    readLE (serializerWrite md5File md5Toc magic version nameEnc
        (Except.ok info) WStream.empty).1.data 180 4
      = 24 % 2 ^ 32 ∧
    readLE (serializerWrite md5File md5Toc magic version nameEnc
        (Except.ok info) WStream.empty).1.data 186 4
      = (24 + info.driveBlock.length) % 2 ^ 32 ∧
    readLE (serializerWrite md5File md5Toc magic version nameEnc
        (Except.ok info) WStream.empty).1.data 192 4
      = (24 + info.driveBlock.length + info.folderBlock.length) % 2 ^ 32 ∧
    readLE (serializerWrite md5File md5Toc magic version nameEnc
        (Except.ok info) WStream.empty).1.data 198 4
      = (24 + info.driveBlock.length + info.folderBlock.length
          + info.fileBlock.length) % 2 ^ 32 ∧
    bytesAt (serializerWrite md5File md5Toc magic version nameEnc
        (Except.ok info) WStream.empty).1.data
        (204 + info.driveBlock.length + info.folderBlock.length
          + info.fileBlock.length + info.nameBlock.length)
        info.dataBlock.length
      = info.dataBlock) := by
  constructor
  · simp only [serializerWrite, writeToc, WStream.write, WStream.seek,
      WStream.tell, WStream.empty, hmagic, hversion]
    norm_num
  · simp only [serializerWrite, writeToc, WStream.write, WStream.seek,
      WStream.tell, WStream.empty, hmagic, hversion]
    norm_num
    rw [writeAt_of_length_eq [] magic 0 rfl]
    simp only [List.nil_append]
    rw [writeAt_of_length_eq magic version 8 hmagic.symm]
    rw [writeAt_of_length_eq (magic ++ version) (List.replicate 168 0) 12
      (by simp only [List.length_append, List.length_replicate, hmagic, hversion] <;> omega)]
    rw [writeAt_of_length_eq (magic ++ version ++ List.replicate 168 0)
      (List.replicate 24 0) 180 (by simp only [List.length_append, List.length_replicate, hmagic, hversion] <;> omega)]
    rw [writeAt_of_length_eq (magic ++ version ++ List.replicate 168 0
      ++ List.replicate 24 0) info.driveBlock 204
      (by simp only [List.length_append, List.length_replicate, hmagic, hversion] <;> omega)]
    rw [writeAt_of_length_eq (magic ++ version ++ List.replicate 168 0
      ++ List.replicate 24 0 ++ info.driveBlock) info.folderBlock
      (204 + info.driveBlock.length) (by simp only [List.length_append, List.length_replicate, hmagic, hversion] <;> omega)]
    rw [writeAt_of_length_eq (magic ++ version ++ List.replicate 168 0
      ++ List.replicate 24 0 ++ info.driveBlock ++ info.folderBlock)
      info.fileBlock (204 + info.driveBlock.length + info.folderBlock.length)
      (by simp only [List.length_append, List.length_replicate, hmagic, hversion] <;> omega)]
    rw [writeAt_of_length_eq (magic ++ version ++ List.replicate 168 0
      ++ List.replicate 24 0 ++ info.driveBlock ++ info.folderBlock
      ++ info.fileBlock) info.nameBlock
      (204 + info.driveBlock.length + info.folderBlock.length
        + info.fileBlock.length) (by simp only [List.length_append, List.length_replicate, hmagic, hversion] <;> omega)]
    rw [writeAt_of_length_eq (magic ++ version ++ List.replicate 168 0
      ++ List.replicate 24 0 ++ info.driveBlock ++ info.folderBlock
      ++ info.fileBlock ++ info.nameBlock) info.dataBlock
      (204 + info.driveBlock.length + info.folderBlock.length
        + info.fileBlock.length + info.nameBlock.length)
      (by simp only [List.length_append, List.length_replicate, hmagic, hversion] <;> omega)]
    have hS204 : 204 ≤ (magic ++ version ++ List.replicate 168 0
        ++ List.replicate 24 0 ++ info.driveBlock ++ info.folderBlock
        ++ info.fileBlock ++ info.nameBlock ++ info.dataBlock).length := by
      simp only [List.length_append, List.length_replicate, hmagic, hversion]
      omega
    have htoc := writeTocHeaderFields_reads (magic ++ version
      ++ List.replicate 168 0 ++ List.replicate 24 0 ++ info.driveBlock
      ++ info.folderBlock ++ info.fileBlock ++ info.nameBlock
      ++ info.dataBlock) 24 info.driveCount
      (204 + info.driveBlock.length - 180) info.folderCount
      (204 + info.driveBlock.length + info.folderBlock.length - 180)
      info.fileCount
      (204 + info.driveBlock.length + info.folderBlock.length
        + info.fileBlock.length - 180) info.nameCount hS204
    refine ⟨?_, ?_, ?_, ?_, ?_, ?_, ?_⟩
    · rw [readLE_writeMetaFields_at172]
      first
        | rfl
        | omega
        | norm_num
        | (congr 1 <;> omega)
        | (norm_num <;> omega)
    · rw [readLE_writeMetaFields_at176]
      first
        | rfl
        | omega
        | norm_num
        | (congr 1 <;> omega)
        | (norm_num <;> omega)
    · rw [readLE_writeMetaFields_high _ _ _ _ _ _ _ _ (hmd5f _) hname
        (hmd5t _) (by norm_num)]
      rw [htoc.1]
      first
        | rfl
        | omega
        | norm_num
        | (congr 1 <;> omega)
        | (norm_num <;> omega)
    · rw [readLE_writeMetaFields_high _ _ _ _ _ _ _ _ (hmd5f _) hname
        (hmd5t _) (by norm_num)]
      rw [htoc.2.1]
      first
        | rfl
        | omega
        | norm_num
        | (congr 1 <;> omega)
        | (norm_num <;> omega)
    · rw [readLE_writeMetaFields_high _ _ _ _ _ _ _ _ (hmd5f _) hname
        (hmd5t _) (by norm_num)]
      rw [htoc.2.2.1]
      first
        | rfl
        | omega
        | norm_num
        | (congr 1 <;> omega)
        | (norm_num <;> omega)
    · rw [readLE_writeMetaFields_high _ _ _ _ _ _ _ _ (hmd5f _) hname
        (hmd5t _) (by norm_num)]
      rw [htoc.2.2.2.1]
      first
        | rfl
        | omega
        | norm_num
        | (congr 1 <;> omega)
        | (norm_num <;> omega)
    · rw [bytesAt_writeMetaFields_high _ _ _ _ _ _ _ _ (hmd5f _) hname
        (hmd5t _) (by omega)]
      rw [htoc.2.2.2.2 _ _ (by omega)]
      have hP : 204 + info.driveBlock.length + info.folderBlock.length
          + info.fileBlock.length + info.nameBlock.length
          = (magic ++ version ++ List.replicate 168 0
            ++ List.replicate 24 0 ++ info.driveBlock ++ info.folderBlock
            ++ info.fileBlock ++ info.nameBlock).length := by
        simp only [List.length_append, List.length_replicate, hmagic,
          hversion] <;> omega
      rw [hP, bytesAt_append_right]


/-- C4 witness: the back-patch theorem applied to a concrete disassembly
with a 2-byte drive block, a 1-byte folder block, an empty file block, a
3-byte name block and a 2-byte data block (total sub-block bytes 6):
toc_size is 30, data_offset is 210, the four stored sub-block offsets are
24, 26, 27 and 27, and the data block bytes sit at offset 210. -/
theorem C4_backpatch_header_witness :
    readLE (serializerWrite (fun _ => List.replicate 16 0)
      (fun _ => List.replicate 16 0) (List.replicate 8 77) [2, 0, 0, 0]
      [97] (Except.ok wTocInfo) WStream.empty).1.data 172 4 = 30 ∧
    readLE (serializerWrite (fun _ => List.replicate 16 0)
      (fun _ => List.replicate 16 0) (List.replicate 8 77) [2, 0, 0, 0]
      [97] (Except.ok wTocInfo) WStream.empty).1.data 176 4 = 210 ∧
    readLE (serializerWrite (fun _ => List.replicate 16 0)
      (fun _ => List.replicate 16 0) (List.replicate 8 77) [2, 0, 0, 0]
      [97] (Except.ok wTocInfo) WStream.empty).1.data 180 4 = 24 ∧
    readLE (serializerWrite (fun _ => List.replicate 16 0)
      (fun _ => List.replicate 16 0) (List.replicate 8 77) [2, 0, 0, 0]
      [97] (Except.ok wTocInfo) WStream.empty).1.data 186 4 = 26 ∧
    readLE (serializerWrite (fun _ => List.replicate 16 0)
      (fun _ => List.replicate 16 0) (List.replicate 8 77) [2, 0, 0, 0]
      [97] (Except.ok wTocInfo) WStream.empty).1.data 192 4 = 27 ∧
    readLE (serializerWrite (fun _ => List.replicate 16 0)
      (fun _ => List.replicate 16 0) (List.replicate 8 77) [2, 0, 0, 0]
      [97] (Except.ok wTocInfo) WStream.empty).1.data 198 4 = 27 ∧
    bytesAt (serializerWrite (fun _ => List.replicate 16 0)
      (fun _ => List.replicate 16 0) (List.replicate 8 77) [2, 0, 0, 0]
      [97] (Except.ok wTocInfo) WStream.empty).1.data 210 2 = [9, 9] := by
  have h := C4_backpatch_header (fun _ => List.replicate 16 0)
    (fun _ => List.replicate 16 0) (List.replicate 8 77) [2, 0, 0, 0]
    [97] wTocInfo rfl rfl (by decide) (fun x => rfl) (fun x => rfl)
  exact ⟨h.2.1.trans (by norm_num [wTocInfo]),
         h.2.2.1.trans (by norm_num [wTocInfo]),
         h.2.2.2.1.trans (by norm_num),
         h.2.2.2.2.1.trans (by norm_num [wTocInfo]),
         h.2.2.2.2.2.1.trans (by norm_num [wTocInfo]),
         h.2.2.2.2.2.2.1.trans (by norm_num [wTocInfo]),
         h.2.2.2.2.2.2.2⟩


end SgaV2
